import Mathlib

/-!
Verification development for the BulkLoadData_Python repository
(src/BulkLoad_Python.py and src/remote_loader.py).

The Python code is shallowly embedded: JSON values are modelled by the
inductive type JValue; every network or filesystem interaction is
parameterised by an explicit environment describing the outcome of each
call (a successful response, or a raised exception); repository API
calls and temporary-file acquisitions and releases are recorded in an
explicit event trace.
-/

/-- Model of a Python JSON value as produced by json.load: objects are
association lists of string keys (dicts loaded from JSON have unique keys). -/
inductive JValue where
  | null : JValue
  | bool (b : Bool) : JValue
  | num (n : Int) : JValue
  | str (s : String) : JValue
  | arr (xs : List JValue) : JValue
  | obj (fields : List (String × JValue)) : JValue

/-- dict.get: first binding of the key in an association list. -/
def jlookup : List (String × JValue) → String → Option JValue
  | [], _ => none
  | (k2, v) :: rest, k => if k2 = k then some v else jlookup rest k

/-- Key membership test for the object form (dict __contains__). -/
def jHasKey (fs : List (String × JValue)) (k : String) : Bool :=
  (jlookup fs k).isSome

/-- dict.pop(k, None): drop every binding of the key. -/
def jRemoveKey (fs : List (String × JValue)) (k : String) : List (String × JValue) :=
  fs.filter (fun p => p.1 != k)

/-- Python truthiness of a JSON value. -/
def jTruthy : JValue → Bool
  | .null => false
  | .bool b => b
  | .num n => n != 0
  | .str s => s != ""
  | .arr xs => !xs.isEmpty
  | .obj fs => !fs.isEmpty

/-- The pattern list is an initial segment of the text list. -/
def leadsWith : List Char → List Char → Bool
  | [], _ => true
  | _ :: _, [] => false
  | a :: pat, b :: text => a == b && leadsWith pat text

/-- The pattern list occurs contiguously inside the text list
(Python substring membership). -/
def containsSeq : List Char → List Char → Bool
  | text, pat =>
    leadsWith pat text ||
      (match text with
       | [] => false
       | _ :: rest => containsSeq rest pat)

/-- str.lower() on one character (ASCII case mapping, which is all the
URLs and markers here use). -/
def lowerChar (c : Char) : Char :=
  if 65 ≤ c.toNat && c.toNat ≤ 90 then Char.ofNat (c.toNat + 32) else c

/-- str.lower(). -/
def strLower (s : String) : String :=
  String.mk (s.data.map lowerChar)

/-- Python `k in v` for a JSON value: key test on dicts, element test on
lists, substring test on strings; a TypeError (none) on the rest. -/
def pyInChk (k : String) : JValue → Option Bool
  | .obj fs => some (jHasKey fs k)
  | .arr xs => some (xs.any (fun v => match v with | .str s => s == k | _ => false))
  | .str s => some (containsSeq s.data k.data)
  | _ => none

/-- Payload preparation section of create_dataset
(src/BulkLoad_Python.py lines 31-50).  Returns none when the Python code
would raise a TypeError (caught by the surrounding handler), otherwise
some (payload submitted to the API, metadata object after the call).
The second component records the in-place mutation: dv_payload aliases
metadata["datasetVersion"], so popping "files"/"dataFiles" from it also
changes the callers document. -/
def create_dataset_prep (metadata : JValue) : Option (JValue × JValue) :=
  match metadata with
  | .obj fs =>
    match jlookup fs "datasetVersion" with
    | some dv =>
      -- dataset_json = {"datasetVersion": metadata["datasetVersion"]}
      match dv with
      | .obj dvfs =>
        -- dv_payload is a dict: pop "files" and "dataFiles" in place
        let dv2 := JValue.obj (jRemoveKey (jRemoveKey dvfs "files") "dataFiles")
        some (.obj [("datasetVersion", dv2)],
              .obj (fs.map (fun p => if p.1 = "datasetVersion" then (p.1, dv2) else p)))
      | _ =>
        -- dv_payload is not a dict: no stripping
        some (.obj [("datasetVersion", dv)], metadata)
    | none =>
      -- dataset_json = metadata; dataset_json.get("datasetVersion") is None
      some (metadata, metadata)
  | m =>
    match pyInChk "datasetVersion" m with
    | none => none          -- "datasetVersion" in metadata raises TypeError
    | some true => none     -- metadata["datasetVersion"] on a non-dict raises
    | some false => some (m, m)

/-- The payload create_dataset submits to the repository API, when the
preparation does not raise. -/
def submittedPayload (metadata : JValue) : Option JValue :=
  (create_dataset_prep metadata).map (fun p => p.1)

/-- Outcome of one network or filesystem call: a value, or a raised
exception. -/
inductive Fetched (α : Type) where
  | raised : Fetched α
  | ok (val : α) : Fetched α

def Fetched.isOk {α : Type} : Fetched α → Bool
  | .raised => false
  | .ok _ => true

/-- A repository API response: either the call raised, or it returned a
status code together with the result of response.json() (which may
itself raise while parsing). -/
inductive ApiResp where
  | raised : ApiResp
  | resp (status : Int) (body : Fetched JValue) : ApiResp

/-- Observable events of a run: repository API calls, and acquisition and
release of temporary files. -/
inductive Ev where
  | acqTemp (path : String) : Ev
  | relTemp (path : String) : Ev
  | callCreate (payload : JValue) : Ev
  | callList (pid : JValue) : Ev
  | callDelete (fid : JValue) : Ev
  | callUpload (pid : JValue) (path : String) : Ev

def Ev.isCreate : Ev → Bool
  | .callCreate _ => true
  | _ => false

def Ev.isUpload : Ev → Bool
  | .callUpload _ _ => true
  | _ => false

/-- An event of the file-clearing phase: listing or deleting files. -/
def Ev.isClear : Ev → Bool
  | .callList _ => true
  | .callDelete _ => true
  | _ => false

/-- Response handling of create_dataset (src/BulkLoad_Python.py lines
52-66): the persistent id is returned only for a 201 response whose
parsed body carries data.id and data.persistentId; every other status,
every malformed body, and a raised exception yield None. -/
def create_dataset_api (resp : ApiResp) : Option JValue :=
  match resp with
  | .raised => none
  | .resp status body =>
    if status = 201 then
      -- data = response.json(); data["data"]["id"]; data["data"]["persistentId"]
      match body with
      | .ok (.obj fs) =>
        match jlookup fs "data" with
        | some (.obj ds) =>
          match jlookup ds "id", jlookup ds "persistentId" with
          | some _, some pid => some pid
          | _, _ => none
        | _ => none
      | _ => none
    else none

/-- create_dataset (src/BulkLoad_Python.py lines 28-66), embedded over an
explicit API response.  Returns (persistent id or None, the metadata
object after the call, the API calls made).  Every exception inside the
function body is caught and turns into a None result; when payload
preparation itself raises, no API call happens at all. -/
def create_dataset (metadata : JValue) (resp : ApiResp) :
    Option JValue × JValue × List Ev :=
  match create_dataset_prep metadata with
  | none => (none, metadata, [])
  | some (payload, metadata2) =>
    (create_dataset_api resp, metadata2, [Ev.callCreate payload])

/-- File-id extraction in delete_all_files_in_dataset
(src/BulkLoad_Python.py lines 82-87): item["dataFile"]["id"] when the
shapes match, None otherwise. -/
def extract_file_id (item : JValue) : Option JValue :=
  match item with
  | .obj fs =>
    match jlookup fs "dataFile" with
    | some (.obj dfs) => jlookup dfs "id"
    | _ => none
  | _ => none

/-- Python iteration over a JSON value: elements of a list, keys of a
dict, characters of a string; a TypeError (none) on the rest. -/
def pyIter : JValue → Option (List JValue)
  | .arr xs => some xs
  | .obj fs => some (fs.map (fun p => JValue.str p.1))
  | .str s => some (s.data.map (fun c => JValue.str (String.singleton c)))
  | _ => none

/-- Per-item delete loop of delete_all_files_in_dataset
(src/BulkLoad_Python.py lines 81-103).  delResp gives the status of each
delete call, or none when the call raises (which aborts the remaining
deletes through the outer handler).  A non-2xx delete status is only
logged: the loop continues regardless of it. -/
def delete_loop (delResp : JValue → Option Int) : List JValue → Bool × List Ev
  | [] => (true, [])
  | item :: rest =>
    match extract_file_id item with
    | none => delete_loop delResp rest
    | some fid =>
      if jTruthy fid then
        match delResp fid with
        | none => (false, [Ev.callDelete fid])
        | some _ =>
          let r := delete_loop delResp rest
          (r.1, Ev.callDelete fid :: r.2)
      else delete_loop delResp rest

/-- delete_all_files_in_dataset (src/BulkLoad_Python.py lines 68-108),
embedded over the list-files response and per-file delete outcomes.
Returns (the function result, the API calls made). -/
def delete_all_files_in_dataset (pid : JValue) (listResp : ApiResp)
    (delResp : JValue → Option Int) : Bool × List Ev :=
  match listResp with
  | .raised => (false, [Ev.callList pid])
  | .resp status body =>
    if status = 200 then
      match body with
      | .raised => (false, [Ev.callList pid])
      | .ok bj =>
        match bj with
        | .obj fs =>
          let data := (jlookup fs "data").getD (.arr [])
          if jTruthy data then
            match pyIter data with
            | none => (false, [Ev.callList pid])
            | some items =>
              let r := delete_loop delResp items
              (r.1, Ev.callList pid :: r.2)
          else (true, [Ev.callList pid])
        | _ => (false, [Ev.callList pid])  -- .get on a non-dict raises
    else (false, [Ev.callList pid])

/-- upload_zip_file (src/BulkLoad_Python.py lines 110-140): true exactly
for a 200/201 response; every exception is caught and yields false. -/
def upload_zip_file (resp : ApiResp) : Bool :=
  match resp with
  | .raised => false
  | .resp status _ => status == 200 || status == 201

/-- One element of the remote-list manifest (remote_loader.py docstring):
the fields that the main loop reads from an entry.  file_url is kept with
its Python truthiness: an empty string is falsy. -/
structure Entry where
  metadata : Option JValue
  metadata_url : Option String
  file_url : Option String

/-- Environment for processing one manifest entry: the outcome of each
network interaction the entry can trigger. -/
structure EntryEnv where
  /-- download_to_temp(metadata_url): temp file path, or a raised exception. -/
  mFetch : Fetched String
  /-- json.load over the downloaded metadata temp file. -/
  mParse : Fetched JValue
  /-- response of api.create_dataset. -/
  createResp : ApiResp
  /-- response of api.get_datafiles_metadata. -/
  listResp : ApiResp
  /-- status of each api.delete_request, or none when the call raises. -/
  delResp : JValue → Option Int
  /-- download_to_temp(file_url). -/
  fFetch : Fetched String
  /-- response of api.upload_datafile. -/
  uploadResp : ApiResp

/-- Result of one manifest entry, as reported by the loop
(remote_loader.py lines 408-457): an error message (caught exception),
a create_dataset failure skipping the entry, or completion with the
persistent id and the upload result (none when no file_url was given). -/
inductive EntryOutcome where
  | errored : EntryOutcome
  | createRejected : EntryOutcome
  | completed (pid : JValue) (upload : Option Bool) : EntryOutcome

/-- Truthiness of the optional file_url string. -/
def truthyStr : Option String → Bool
  | none => false
  | some s => s != ""

/-- Continuation of the entry loop body once the metadata document is in
hand (remote_loader.py lines 427-457).  evs are the events so far and
temps the temporary files the finally clause must remove; the finally
clause appends a release for each on every path.  bl.create_dataset and
bl.upload_zip_file never raise (they catch internally); the call to
bl.delete_all_files_in_dataset sits in its own try/except whose failure
is only a warning. -/
def entry_after_metadata (e : Entry) (env : EntryEnv) (m : JValue)
    (evs : List Ev) (temps : List String) : EntryOutcome × List Ev :=
  let rels := temps.map Ev.relTemp
  let c := create_dataset m env.createResp
  let evs := evs ++ c.2.2
  match c.1 with
  | none => (.createRejected, evs ++ rels)
  | some pid =>
    if jTruthy pid then
      let d := delete_all_files_in_dataset pid env.listResp env.delResp
      let evs := evs ++ d.2
      if truthyStr e.file_url then
        match env.fFetch with
        | .raised => (.errored, evs ++ rels)
        | .ok t2 =>
          let ok := upload_zip_file env.uploadResp
          (.completed pid (some ok),
           evs ++ [Ev.acqTemp t2, Ev.callUpload pid t2] ++ rels ++ [Ev.relTemp t2])
      else (.completed pid none, evs ++ rels)
    else (.createRejected, evs ++ rels)

/-- Body of the per-entry loop of remote_loader.main
(remote_loader.py lines 408-457).  Every exception raised inside the try
block (including the ClickException for an entry with neither metadata
nor metadata_url) is caught at line 448, and the finally clause removes
whatever temp files were acquired. -/
def process_remote_entry (e : Entry) (env : EntryEnv) : EntryOutcome × List Ev :=
  match e.metadata with
  | some m => entry_after_metadata e env m [] []
  | none =>
    match e.metadata_url with
    | none => (.errored, [])
    | some _ =>
      match env.mFetch with
      | .raised => (.errored, [])
      | .ok t =>
        match env.mParse with
        | .raised => (.errored, [Ev.acqTemp t, Ev.relTemp t])
        | .ok m => entry_after_metadata e env m [Ev.acqTemp t] [t]

/-- The metadata document the entry loop resolves for an entry, if any:
the inline object when present, otherwise the downloaded and parsed
document (none when a step raises or both fields are absent). -/
def resolvedMetadata (e : Entry) (env : EntryEnv) : Option JValue :=
  match e.metadata with
  | some m => some m
  | none =>
    match e.metadata_url with
    | none => none
    | some _ =>
      match env.mFetch with
      | .raised => none
      | .ok _ =>
        match env.mParse with
        | .raised => none
        | .ok m => some m

/-- The for-loop over manifest entries in remote_loader.main: strictly
sequential, one entry at a time, no abort between entries. -/
def remote_list_loop (items : List (Entry × EntryEnv)) : List (EntryOutcome × List Ev) :=
  items.map (fun p => process_remote_entry p.1 p.2)

/-- Truthiness of the optional persistent id returned by create_dataset
(python: if not pid). -/
def truthyPid : Option JValue → Bool
  | none => false
  | some v => jTruthy v

/-- A unit whose metadata resolves and whose create_dataset call yields a
truthy persistent id, and whose file download (when a truthy file_url is
given) does not raise: such a unit runs to completion. -/
def goodUnitB (e : Entry) (env : EntryEnv) : Bool :=
  match resolvedMetadata e env with
  | none => false
  | some m =>
    truthyPid (create_dataset m env.createResp).1 &&
    (match e.file_url with
     | none => true
     | some s => (s == "") || env.fFetch.isOk)

/-- A unit whose metadata resolves but whose create_dataset call is
rejected (falsy persistent id). -/
def createRejectedUnitB (e : Entry) (env : EntryEnv) : Bool :=
  match resolvedMetadata e env with
  | none => false
  | some m => !(truthyPid (create_dataset m env.createResp).1)

/-- A unit whose metadata cannot be resolved: a metadata_url is given but
downloading or parsing it raises. -/
def metadataUnavailableUnitB (e : Entry) (env : EntryEnv) : Bool :=
  e.metadata.isNone && e.metadata_url.isSome && (resolvedMetadata e env).isNone

/-- Substring test, Python `sub in s` on strings. -/
def containsSub (s sub : String) : Bool :=
  containsSeq s.data sub.data

/-- Deduplication preserving first-seen order
(remote_loader.py lines 121-122). -/
def dedupFirstGo (seen : List String) : List String → List String
  | [] => []
  | l :: rest => if l ∈ seen then dedupFirstGo seen rest else l :: dedupFirstGo (l :: seen) rest

def dedupFirst (ls : List String) : List String :=
  dedupFirstGo [] ls

/-- The suffix list is a final segment of the text list. -/
def trailsWith (suf text : List Char) : Bool :=
  leadsWith suf.reverse text.reverse

/-- Python str.rstrip() whitespace set. -/
def pyWhitespace (c : Char) : Bool :=
  c == ' ' || c == '\t' || c == '\n' || c == '\r' || c == '\x0b' || c == '\x0c'

/-- str.rstrip(): drop trailing whitespace. -/
def rstripL (xs : List Char) : List Char :=
  (xs.reverse.dropWhile pyWhitespace).reverse

/-- A directory-style link: l.rstrip().endswith("/")
(remote_loader.py line 125). -/
def isDirLink (l : String) : Bool :=
  trailsWith ['/'] (rstripL l.data)

/-- Case-insensitive suffix test, python l.lower().endswith(suf). -/
def endsWithLower (l suf : String) : Bool :=
  trailsWith suf.data (l.data.map lowerChar)

/-- The text up to (excluding) the first occurrence of the character,
whole text when absent. -/
def takeBeforeCh (c : Char) : List Char → List Char
  | [] => []
  | x :: xs => if x == c then [] else x :: takeBeforeCh c xs

/-- Split the text at the first occurrence of a non-empty contiguous
pattern: some (before, after) when the pattern occurs, none otherwise. -/
def breakOnSeq (sep : List Char) : List Char → Option (List Char × List Char)
  | [] => none
  | c :: rest =>
    if leadsWith sep (c :: rest) then some ([], (c :: rest).drop sep.length)
    else
      match breakOnSeq sep rest with
      | some (b, a) => some (c :: b, a)
      | none => none

/-- Split the text at every occurrence of a character (str.split(c)). -/
def splitCh (c : Char) : List Char → List (List Char)
  | [] => [[]]
  | x :: xs =>
    let r := splitCh c xs
    if x == c then [] :: r
    else
      match r with
      | [] => [[x]]
      | h :: t => (x :: h) :: t

/-- Interleave a character between the given chunks (c.join). -/
def joinCh (c : Char) : List (List Char) → List Char
  | [] => []
  | [x] => x
  | x :: xs => x ++ c :: joinCh c xs

/-- The path component of a URL, as urlparse(u).path: the text after the
scheme and host, with query and fragment removed. -/
def urlPath (u : String) : String :=
  let base := takeBeforeCh '?' (takeBeforeCh '#' u.data)
  match breakOnSeq ("://".data) base with
  | none => String.mk base
  | some (_scheme, rest) =>
    match breakOnSeq ['/'] rest with
    | none => ""
    | some (_host, pathRest) => String.mk ('/' :: pathRest)

/-- pathlib Path(p).stem of the final path component: the last non-empty
component with its final suffix removed (a lone leading dot is kept). -/
def pathStem (p : String) : String :=
  let name := ((splitCh '/' p.data).filter (fun s => !s.isEmpty)).getLastD []
  match splitCh '.' name with
  | [] => String.mk name
  | [_] => String.mk name
  | parts =>
    let stem := joinCh '.' parts.dropLast
    if stem.isEmpty then String.mk name else String.mk stem

/-- Filename stem used for flat pairing: Path(urlparse(u).path).stem
(remote_loader.py lines 154, 157). -/
def urlStem (u : String) : String :=
  pathStem (urlPath u)

/-- Environment for process_remote_folder_url: the successive results of
get_links_from_html (one element per fetch, root page first), and the
outcome of every download, parse and repository call.  Modelling the
fetches as a sequence reflects that two fetches of the same URL are
distinct network requests and can return different content. -/
structure HtmlEnv where
  fetches : List (Fetched (List String))
  download : String → Fetched String
  parse : String → Fetched JValue
  createResp : JValue → ApiResp
  listResp : JValue → ApiResp
  delResp : JValue → Option Int
  uploadResp : String → ApiResp

/-- One iteration of the flat-pairing fallback loop
(remote_loader.py lines 152-183): pair a root-level .json with a
root-level .zip of the same stem and process the pair.  There is no
finally clause here: the temp file holding the metadata is removed only
on the normal path; the continue on create failure (line 169) and the
except handler (line 182) skip the removal. -/
def flat_pair_one (env : HtmlEnv) (rootZips : List String) (j : String) : List Ev :=
  let jstem := urlStem j
  let zmatch := rootZips.find? (fun z => urlStem z == jstem)
  match env.download j with
  | .raised => []
  | .ok t =>
    match env.parse t with
    | .raised => [Ev.acqTemp t]
    | .ok meta =>
      let c := create_dataset meta (env.createResp meta)
      let evs := Ev.acqTemp t :: c.2.2
      match c.1 with
      | none => evs
      | some pid =>
        if jTruthy pid then
          let d := delete_all_files_in_dataset pid (env.listResp pid) env.delResp
          let evs := evs ++ d.2
          match zmatch with
          | none => evs ++ [Ev.relTemp t]
          | some z =>
            match env.download z with
            | .raised => evs
            | .ok t2 =>
              let _ := upload_zip_file (env.uploadResp t2)
              evs ++ [Ev.acqTemp t2, Ev.callUpload pid t2, Ev.relTemp t2, Ev.relTemp t]
        else evs

/-- The whole flat-pairing fallback (remote_loader.py lines 149-184):
iterate over the root-level .json links. -/
def flat_pair_all (env : HtmlEnv) (links : List String) : List Ev :=
  let rootJsons := links.filter (fun l => endsWithLower l ".json")
  let rootZips := links.filter (fun l => endsWithLower l ".zip")
  (rootJsons.map (flat_pair_one env rootZips)).flatten

/-- The per-folder main branch (remote_loader.py lines 190-219): download
the metadata, create the dataset, clear its files, optionally download
and upload the file, with a finally clause removing both temp files. -/
def folder_main_body (env : HtmlEnv) (mUrl : String) (fUrl : Option String) : List Ev :=
  match env.download mUrl with
  | .raised => []
  | .ok t =>
    match env.parse t with
    | .raised => [Ev.acqTemp t, Ev.relTemp t]
    | .ok meta =>
      let c := create_dataset meta (env.createResp meta)
      let evs := Ev.acqTemp t :: c.2.2
      match c.1 with
      | none => evs ++ [Ev.relTemp t]
      | some pid =>
        if jTruthy pid then
          let d := delete_all_files_in_dataset pid (env.listResp pid) env.delResp
          let evs := evs ++ d.2
          match fUrl with
          | some fu =>
            match env.download fu with
            | .raised => evs ++ [Ev.relTemp t]
            | .ok t2 =>
              let _ := upload_zip_file (env.uploadResp t2)
              evs ++ [Ev.acqTemp t2, Ev.callUpload pid t2, Ev.relTemp t, Ev.relTemp t2]
          | none => evs ++ [Ev.relTemp t]
        else evs ++ [Ev.relTemp t]

/-- Processing of one folder link (remote_loader.py lines 132-219): fetch
its sub-listing, locate the first .json and first .zip, and either run
the flat-pairing fallback (only when no .json was found and the folder
is the root itself), skip, or run the main branch. -/
def process_one_folder (env : HtmlEnv) (rootUrl : String) (links : List String)
    (folder : String) (sub : Fetched (List String)) : List Ev :=
  match sub with
  | .raised => []
  | .ok sublinks =>
    let jsonLinks := sublinks.filter (fun l => endsWithLower l ".json")
    let zipLinks := sublinks.filter (fun l => endsWithLower l ".zip")
    match jsonLinks.head? with
    | none =>
      if folder = rootUrl then flat_pair_all env links
      else []
    | some mUrl => folder_main_body env mUrl zipLinks.head?

/-- Iteration over folder links, consuming one fetch result per folder. -/
def go_folders (env : HtmlEnv) (rootUrl : String) (links : List String) :
    List String → List (Fetched (List String)) → List Ev
  | [], _ => []
  | f :: fs, fetchRest =>
    process_one_folder env rootUrl links f (fetchRest.headD .raised)
      ++ go_folders env rootUrl links fs fetchRest.tail

/-- process_remote_folder_url (remote_loader.py lines 112-219).  The
first fetch reads the root page (a failure becomes a ClickException that
propagates, modelled as raised); links are deduplicated preserving
order; directory-style links are preferred as folders, otherwise the
root itself is treated as a flat listing. -/
def process_remote_folder_url (env : HtmlEnv) (rootUrl : String) : Fetched (List Ev) :=
  match env.fetches with
  | [] => .raised
  | .raised :: _ => .raised
  | .ok links0 :: rest =>
    let links := dedupFirst links0
    let dirLinks := links.filter isDirLink
    let folderLinks := if dirLinks.isEmpty then [rootUrl] else dirLinks
    .ok (go_folders env rootUrl links folderLinks rest)

/-- The provider-selection options read by remote_loader.main: the
root locator and the two third-party tokens (click option values; an
empty token string is falsy). -/
structure SelOpts where
  remote_list : String
  onedrive_token : Option String
  gdrive_token : Option String

/-- The provider chosen by the dispatch head of remote_loader.main, or a
fatal missing-credential error naming the required token. -/
inductive SelOutcome where
  | oneDrive : SelOutcome
  | googleDrive : SelOutcome
  | htmlIndex : SelOutcome
  | remoteManifest : SelOutcome
  | localManifest : SelOutcome
  | missingCredential (tok : String) : SelOutcome

/-- The SharePoint/OneDrive URL pattern of remote_loader.py line 375. -/
def spPattern (lower : String) : Bool :=
  containsSub lower "sharepoint" || containsSub lower "1drv.ms" || containsSub lower "onedrive"

/-- The Google Drive URL pattern of remote_loader.py line 382. -/
def gdrivePattern (lower : String) : Bool :=
  containsSub lower "drive.google.com"

/-- The locator is an http(s) URL (remote_loader.py line 371). -/
def isHttpUrl (u : String) : Bool :=
  leadsWith "http://".data u.data || leadsWith "https://".data u.data

/-- The HTML sniff of remote_loader.py lines 393-395, applied to the
content-type header and body of the probe request. -/
def htmlSniff (ctype body : String) : Bool :=
  containsSub (strLower ctype) "text/html" || containsSub (strLower body) "<html"

/-- Provider dispatch head of remote_loader.main
(remote_loader.py lines 370-406), given the probe response headers and
body.  The second component counts the network requests issued before
the decision: the SharePoint/OneDrive and Google Drive branches decide
on the URL text alone; only the HTML/JSON branch performs the probe
request. -/
def select_provider (o : SelOpts) (ctype body : String) : SelOutcome × Nat :=
  if isHttpUrl o.remote_list then
    let lower := strLower o.remote_list
    if spPattern lower then
      if truthyStr o.onedrive_token then (.oneDrive, 0)
      else (.missingCredential "onedrive", 0)
    else if gdrivePattern lower then
      if truthyStr o.gdrive_token then (.googleDrive, 0)
      else (.missingCredential "gdrive", 0)
    else if htmlSniff ctype body then (.htmlIndex, 1)
    else (.remoteManifest, 1)
  else (.localManifest, 0)

/-- A local dataset folder as seen by process_dataset_folder: the
".uploaded_*" marker files it contains, and its .json and .zip files. -/
structure DatasetFolder where
  markers : List String
  jsonFiles : List String
  zipFiles : List String

/-- Environment for process_dataset_folder: outcome of metadata loading
(load_json_metadata catches and returns None) and of each API call. -/
structure FolderEnv where
  loadMeta : Option JValue
  createResp : ApiResp
  listResp : ApiResp
  delResp : JValue → Option Int
  uploadResp : ApiResp

/-- process_dataset_folder (src/BulkLoad_Python.py lines 142-196):
skip folders carrying a ".uploaded_*" marker before anything else, then
load the first .json, create the dataset, always clear its files, and
upload the first .zip when present.  Returns (the reported result, the
repository API calls made for the folder). -/
def process_dataset_folder (f : DatasetFolder) (env : FolderEnv) : Bool × List Ev :=
  if !f.markers.isEmpty then (true, [])
  else
    match f.jsonFiles with
    | [] => (false, [])
    | _ :: _ =>
      match env.loadMeta with
      | none => (false, [])
      | some metadata =>
        let c := create_dataset metadata env.createResp
        match c.1 with
        | none => (false, c.2.2)
        | some pid =>
          if jTruthy pid then
            let d := delete_all_files_in_dataset pid env.listResp env.delResp
            let uevs :=
              match f.zipFiles with
              | [] => []
              | zf :: _ =>
                let _ := upload_zip_file env.uploadResp
                [Ev.callUpload pid zf]
            (true, c.2.2 ++ d.2 ++ uevs)
          else (false, c.2.2)

theorem jlookup_eq_none_iff (fs : List (String × JValue)) (k : String) :
    jlookup fs k = none ↔ ∀ p ∈ fs, p.1 ≠ k := by
  induction fs with
  | nil => simp [jlookup]
  | cons q rest ih =>
    obtain ⟨k1, v1⟩ := q
    by_cases h : k1 = k
    · simp [jlookup, h]
    · simp [jlookup, h, ih]

theorem jlookup_removeKey_self (fs : List (String × JValue)) (k : String) :
    jlookup (jRemoveKey fs k) k = none := by
  induction fs with
  | nil => rfl
  | cons q rest ih =>
    obtain ⟨k1, v1⟩ := q
    by_cases h : k1 = k
    · simpa [jRemoveKey, List.filter_cons, h] using ih
    · simpa [jRemoveKey, List.filter_cons, jlookup, h] using ih

theorem jlookup_removeKey_ne (fs : List (String × JValue)) (k k2 : String) (h : k ≠ k2) :
    jlookup (jRemoveKey fs k2) k = jlookup fs k := by
  induction fs with
  | nil => rfl
  | cons q rest ih =>
    obtain ⟨k1, v1⟩ := q
    rw [jRemoveKey, List.filter_cons]
    by_cases h1 : k1 = k2
    · rw [if_neg (by simp [h1])]
      have hk1 : ¬ k1 = k := fun hk => h (hk.symm.trans h1)
      rw [show jlookup ((k1, v1) :: rest) k = jlookup rest k from by
            rw [jlookup, if_neg hk1]]
      exact ih
    · rw [if_pos (by simp [h1])]
      rw [jlookup, jlookup]
      by_cases h2 : k1 = k
      · rw [if_pos h2, if_pos h2]
      · rw [if_neg h2, if_neg h2]
        exact ih

theorem jRemoveKey_of_absent (fs : List (String × JValue)) (k : String)
    (h : jHasKey fs k = false) : jRemoveKey fs k = fs := by
  have habs : ∀ p ∈ fs, p.1 ≠ k := by
    rw [← jlookup_eq_none_iff]
    simpa [jHasKey, Option.isSome_iff_exists] using h
  unfold jRemoveKey
  rw [List.filter_eq_self]
  intro p hp
  simpa using habs p hp

theorem jlookup_mem (fs : List (String × JValue)) (k : String) (v : JValue)
    (h : jlookup fs k = some v) : (k, v) ∈ fs := by
  induction fs with
  | nil => simp [jlookup] at h
  | cons q rest ih =>
    obtain ⟨k1, v1⟩ := q
    by_cases hk : k1 = k
    · subst hk
      simp [jlookup] at h
      simp [h]
    · simp [jlookup, hk] at h
      exact List.mem_cons_of_mem _ (ih h)

theorem jlookup_mem_unique (fs : List (String × JValue)) (k : String) (v : JValue)
    (hnd : (fs.map Prod.fst).Nodup) (hl : jlookup fs k = some v) :
    ∀ v2, (k, v2) ∈ fs → v2 = v := by
  induction fs with
  | nil => simp
  | cons q rest ih =>
    obtain ⟨k1, v1⟩ := q
    simp only [List.map_cons, List.nodup_cons] at hnd
    intro v2 hv2
    rcases List.mem_cons.mp hv2 with heq | hmem
    · have hk : k = k1 := congrArg Prod.fst heq
      have hv : v2 = v1 := congrArg Prod.snd heq
      subst hk
      rw [jlookup, if_pos rfl] at hl
      cases hl
      exact hv
    · by_cases hk : k1 = k
      · subst hk
        exact absurd (List.mem_map_of_mem Prod.fst hmem) hnd.1
      · rw [jlookup, if_neg hk] at hl
        exact ih hnd.2 hl v2 hmem

/-- A payload free of file-list fields at the levels the stripping step
addresses: no files/dataFiles key at the top level, nor inside a
datasetVersion mapping. -/
def payloadFileFieldFree (p : JValue) : Bool :=
  match p with
  | .obj fs =>
    !(jHasKey fs "files") && !(jHasKey fs "dataFiles") &&
      (match jlookup fs "datasetVersion" with
       | some (.obj dvfs) => !(jHasKey dvfs "files") && !(jHasKey dvfs "dataFiles")
       | _ => true)
  | _ => true

/-- C1 (counterexample): a metadata document with a top-level "files"
field and no "datasetVersion" key is submitted to create_dataset
unchanged — the stripping step only touches a datasetVersion mapping, so
the submitted payload still contains the "files" field, contradicting
the claim that the submitted payload never contains that field whether
it is nested under datasetVersion or at the top level. -/
theorem c1_counterexample :
    submittedPayload (.obj [("files", .arr [])]) = some (.obj [("files", .arr [])]) ∧
    jHasKey [("files", JValue.arr [])] "files" = true :=
  ⟨rfl, rfl⟩

/-- C1 (amended): for every metadata document that carries a
"datasetVersion" entry, the payload submitted by create_dataset contains
no "files"/"dataFiles" fields: the payload consists solely of the
datasetVersion entry, and when that entry is a mapping its
"files"/"dataFiles" keys are stripped. -/
theorem c1_files_stripped (fs : List (String × JValue)) (dv : JValue)
    (h : jlookup fs "datasetVersion" = some dv) :
    ∃ p m2, create_dataset_prep (.obj fs) = some (p, m2) ∧ payloadFileFieldFree p = true := by
  cases dv with
  | obj dvfs =>
    refine ⟨_, _, by rw [create_dataset_prep, h], ?_⟩
    have h1 : jlookup (jRemoveKey (jRemoveKey dvfs "files") "dataFiles") "files" = none := by
      rw [jlookup_removeKey_ne _ _ _ (by simp), jlookup_removeKey_self]
    have h2 : jlookup (jRemoveKey (jRemoveKey dvfs "files") "dataFiles") "dataFiles" = none := by
      rw [jlookup_removeKey_self]
    simp [payloadFileFieldFree, jHasKey, jlookup, h1, h2]
  | null => exact ⟨_, _, by rw [create_dataset_prep, h], by simp [payloadFileFieldFree, jHasKey, jlookup]⟩
  | bool b => exact ⟨_, _, by rw [create_dataset_prep, h], by simp [payloadFileFieldFree, jHasKey, jlookup]⟩
  | num n => exact ⟨_, _, by rw [create_dataset_prep, h], by simp [payloadFileFieldFree, jHasKey, jlookup]⟩
  | str s => exact ⟨_, _, by rw [create_dataset_prep, h], by simp [payloadFileFieldFree, jHasKey, jlookup]⟩
  | arr xs => exact ⟨_, _, by rw [create_dataset_prep, h], by simp [payloadFileFieldFree, jHasKey, jlookup]⟩

/-- C1 (witness): the amended statement evaluated on a concrete document
whose datasetVersion carries a files entry. -/
theorem c1_witness :
    ∃ p m2,
      create_dataset_prep (.obj [("datasetVersion",
          .obj [("files", .arr []), ("title", .str "t")])]) = some (p, m2) ∧
      payloadFileFieldFree p = true :=
  c1_files_stripped _ _ rfl

/-- A value that the stripping step leaves unchanged: not a mapping, or a
mapping without files/dataFiles keys. -/
def stripFixedB : JValue → Bool
  | .obj dvfs => !(jHasKey dvfs "files") && !(jHasKey dvfs "dataFiles")
  | _ => true

/-- C4 (counterexample): processing a unit whose inline metadata carries
datasetVersion.files mutates the callers metadata object: create_dataset
pops the files entry from the aliased datasetVersion dict, so after the
call the document no longer equals its original value. -/
theorem c4_counterexample :
    (create_dataset (.obj [("datasetVersion", .obj [("files", .arr [.num 1])])]) .raised).2.1
      ≠ .obj [("datasetVersion", .obj [("files", .arr [.num 1])])] := by
  intro h
  have h2 : JValue.obj [("datasetVersion", JValue.obj [])]
      = JValue.obj [("datasetVersion", JValue.obj [("files", JValue.arr [JValue.num 1])])] := h
  simp at h2

/-- C4 (amended): the metadata object of a unit is left unchanged by
create_dataset exactly when its datasetVersion entry (if any) carries no
files/dataFiles keys; in that case processing preserves the callers
document for every API response. -/
theorem c4_inline_metadata_preserved (fs : List (String × JValue)) (resp : ApiResp)
    (hnd : (fs.map Prod.fst).Nodup)
    (hfix : fs.all (fun p => !(p.1 == "datasetVersion") || stripFixedB p.2) = true) :
    (create_dataset (.obj fs) resp).2.1 = .obj fs := by
  have hall := List.all_eq_true.mp hfix
  cases hdv : jlookup fs "datasetVersion" with
  | none => simp [create_dataset, create_dataset_prep, hdv]
  | some dv =>
    cases dv with
    | obj dvfs =>
      have hmem := jlookup_mem fs _ _ hdv
      have hsf : stripFixedB (.obj dvfs) = true := by simpa using hall _ hmem
      have hkeys : jHasKey dvfs "files" = false ∧ jHasKey dvfs "dataFiles" = false := by
        simpa [stripFixedB] using hsf
      have hdv2 : jRemoveKey (jRemoveKey dvfs "files") "dataFiles" = dvfs := by
        rw [jRemoveKey_of_absent _ _ hkeys.1, jRemoveKey_of_absent _ _ hkeys.2]
      have hmap : fs.map
          (fun p => if p.1 = "datasetVersion" then (p.1, JValue.obj dvfs) else p) = fs := by
        have hcon : ∀ p ∈ fs,
            (fun p : String × JValue =>
              if p.1 = "datasetVersion" then (p.1, JValue.obj dvfs) else p) p = id p := by
          intro p hp
          by_cases hpk : p.1 = "datasetVersion"
          · have hmemp : ("datasetVersion", p.2) ∈ fs := by
              rw [← hpk]
              simpa using hp
            have hval : p.2 = JValue.obj dvfs :=
              jlookup_mem_unique fs _ _ hnd hdv p.2 hmemp
            show (if p.1 = "datasetVersion" then (p.1, JValue.obj dvfs) else p) = p
            rw [if_pos hpk, ← hval]
          · simp [hpk]
        rw [List.map_congr_left hcon, List.map_id]
      simp [create_dataset, create_dataset_prep, hdv, hdv2, hmap]
    | null => simp [create_dataset, create_dataset_prep, hdv]
    | bool b => simp [create_dataset, create_dataset_prep, hdv]
    | num n => simp [create_dataset, create_dataset_prep, hdv]
    | str s => simp [create_dataset, create_dataset_prep, hdv]
    | arr xs => simp [create_dataset, create_dataset_prep, hdv]

/-- C4 (witness): the amended statement evaluated on a concrete document
without file-list entries. -/
theorem c4_witness :
    (create_dataset
        (.obj [("datasetVersion", .obj [("metadataBlocks", .obj [])]), ("other", .num 3)])
        ApiResp.raised).2.1
      = .obj [("datasetVersion", .obj [("metadataBlocks", .obj [])]), ("other", .num 3)] :=
  c4_inline_metadata_preserved _ _ (by decide) rfl

theorem create_dataset_prep_obj (fs : List (String × JValue)) :
    (create_dataset_prep (.obj fs)).isSome = true := by
  cases hdv : jlookup fs "datasetVersion" with
  | none => simp [create_dataset_prep, hdv]
  | some dv => cases dv <;> simp [create_dataset_prep, hdv]

theorem create_dataset_fst_obj (fs : List (String × JValue)) (r : ApiResp) :
    (create_dataset (.obj fs) r).1 = create_dataset_api r := by
  obtain ⟨pm, hpm⟩ := Option.isSome_iff_exists.mp (create_dataset_prep_obj fs)
  obtain ⟨pl, m2⟩ := pm
  simp [create_dataset, hpm]

/-- C9: for a metadata document (a mapping) and a repository response
that respects the API contract (a 201 body carries data.id and
data.persistentId), create_dataset returns a persistent handle if and
only if the response status is 201 — a raised exception has no status
and therefore yields None — and on a well-formed 201 response the handle
returned is exactly the persistentId of the response body. -/
theorem c9_create_handle_iff (fs : List (String × JValue)) (r : ApiResp)
    (hwf : ∀ st body, r = ApiResp.resp st body → st = 201 →
      ∃ bfs ds, body = Fetched.ok (.obj bfs) ∧ jlookup bfs "data" = some (.obj ds) ∧
        (jlookup ds "id").isSome = true ∧ (jlookup ds "persistentId").isSome = true) :
    ((create_dataset (.obj fs) r).1.isSome = true ↔ ∃ body, r = ApiResp.resp 201 body) ∧
    (∀ bfs ds pid, r = ApiResp.resp 201 (Fetched.ok (.obj bfs)) →
      jlookup bfs "data" = some (.obj ds) → (jlookup ds "id").isSome = true →
      jlookup ds "persistentId" = some pid →
      (create_dataset (.obj fs) r).1 = some pid) := by
  constructor
  · rw [create_dataset_fst_obj]
    cases r with
    | raised => simp [create_dataset_api]
    | resp st body =>
      by_cases hst : st = 201
      · subst hst
        obtain ⟨bfs, ds, hb, hdata, hid, hpid⟩ := hwf 201 body rfl rfl
        subst hb
        obtain ⟨idv, hidv⟩ := Option.isSome_iff_exists.mp hid
        obtain ⟨pidv, hpidv⟩ := Option.isSome_iff_exists.mp hpid
        simp [create_dataset_api, hdata, hidv, hpidv]
      · simp [create_dataset_api, hst]
  · intro bfs ds pid hr hdata hid hpid
    subst hr
    rw [create_dataset_fst_obj]
    obtain ⟨idv, hidv⟩ := Option.isSome_iff_exists.mp hid
    simp [create_dataset_api, hdata, hidv, hpid]

/-- C9 (witness): the iff evaluated on a concrete well-formed 201
response. -/
theorem c9_witness :
    ((create_dataset (.obj []) (ApiResp.resp 201 (.ok (.obj [("data",
        .obj [("id", .num 5), ("persistentId", .str "doi:demo")])])))).1.isSome = true
      ↔ ∃ body, ApiResp.resp 201 (Fetched.ok (JValue.obj [("data",
        JValue.obj [("id", JValue.num 5), ("persistentId", JValue.str "doi:demo")])]))
          = ApiResp.resp 201 body) :=
  (c9_create_handle_iff []
    (ApiResp.resp 201 (.ok (.obj [("data",
        .obj [("id", .num 5), ("persistentId", .str "doi:demo")])])))
    (by
      intro st body h hst
      cases h
      exact ⟨_, _, rfl, rfl, rfl, rfl⟩)).1

/-- C10: a local dataset folder that carries a ".uploaded_*" processed
marker is skipped before any repository interaction: process_dataset_folder
reports success for it and performs zero RepositoryClient calls. -/
theorem c10_marker_skip (f : DatasetFolder) (env : FolderEnv) (h : f.markers ≠ []) :
    process_dataset_folder f env = (true, []) := by
  cases hm : f.markers with
  | nil => exact absurd hm h
  | cons a t => simp [process_dataset_folder, hm]

/-- C10 (witness): a concrete marked folder is skipped with no calls. -/
theorem c10_witness :
    process_dataset_folder ⟨[".uploaded_1"], ["m.json"], ["d.zip"]⟩
      ⟨none, ApiResp.raised, ApiResp.raised, fun _ => none, ApiResp.raised⟩ = (true, []) :=
  c10_marker_skip _ _ (by simp)

theorem entry_after_metadata_fst (e : Entry) (env : EntryEnv) (m : JValue)
    (evs evs2 : List Ev) (temps temps2 : List String) :
    (entry_after_metadata e env m evs temps).1 = (entry_after_metadata e env m evs2 temps2).1 := by
  cases hc : (create_dataset m env.createResp).1 with
  | none => simp [entry_after_metadata, hc]
  | some pid =>
    by_cases hp : jTruthy pid = true
    · by_cases hf : truthyStr e.file_url = true
      · cases hff : env.fFetch <;> simp [entry_after_metadata, hc, hp, hf, hff]
      · rw [Bool.not_eq_true] at hf
        simp [entry_after_metadata, hc, hp, hf]
    · rw [Bool.not_eq_true] at hp
      simp [entry_after_metadata, hc, hp]

theorem process_remote_entry_fst (e : Entry) (env : EntryEnv) (m : JValue)
    (h : resolvedMetadata e env = some m) :
    (process_remote_entry e env).1 = (entry_after_metadata e env m [] []).1 := by
  unfold resolvedMetadata at h
  unfold process_remote_entry
  cases he : e.metadata with
  | some m2 =>
    rw [he] at h
    cases h
    rfl
  | none =>
    rw [he] at h
    cases hu : e.metadata_url with
    | none => rw [hu] at h; cases h
    | some u =>
      rw [hu] at h
      cases hf : env.mFetch with
      | raised => rw [hf] at h; cases h
      | ok t =>
        rw [hf] at h
        cases hp : env.mParse with
        | raised => rw [hp] at h; cases h
        | ok m2 =>
          rw [hp] at h
          cases h
          exact entry_after_metadata_fst e env m _ _ _ _

theorem process_remote_entry_rejected (e : Entry) (env : EntryEnv)
    (h : createRejectedUnitB e env = true) :
    (process_remote_entry e env).1 = EntryOutcome.createRejected := by
  unfold createRejectedUnitB at h
  cases hm : resolvedMetadata e env with
  | none => rw [hm] at h; exact absurd (h : (false : Bool) = true) (by simp)
  | some m =>
    rw [hm] at h
    have h2 : (!truthyPid (create_dataset m env.createResp).1) = true := h
    rw [process_remote_entry_fst e env m hm]
    cases hc : (create_dataset m env.createResp).1 with
    | none => simp [entry_after_metadata, hc]
    | some pid =>
      rw [hc] at h2
      have hpf : jTruthy pid = false := by simpa [truthyPid] using h2
      simp [entry_after_metadata, hc, hpf]

theorem process_remote_entry_meta_unavailable (e : Entry) (env : EntryEnv)
    (h : metadataUnavailableUnitB e env = true) :
    (process_remote_entry e env).1 = EntryOutcome.errored := by
  unfold metadataUnavailableUnitB at h
  rw [Bool.and_eq_true, Bool.and_eq_true] at h
  obtain ⟨⟨hm, hu⟩, hr⟩ := h
  rw [Option.isNone_iff_eq_none] at hm
  obtain ⟨u, hu2⟩ := Option.isSome_iff_exists.mp hu
  rw [Option.isNone_iff_eq_none] at hr
  unfold resolvedMetadata at hr
  rw [hm, hu2] at hr
  unfold process_remote_entry
  rw [hm, hu2]
  cases hf : env.mFetch with
  | raised => rfl
  | ok t =>
    rw [hf] at hr
    cases hp : env.mParse with
    | raised => rfl
    | ok m2 => rw [hp] at hr; cases hr

theorem process_remote_entry_completed (e : Entry) (env : EntryEnv)
    (h : goodUnitB e env = true) :
    ∃ pid up, (process_remote_entry e env).1 = EntryOutcome.completed pid up := by
  unfold goodUnitB at h
  cases hm : resolvedMetadata e env with
  | none => rw [hm] at h; exact absurd (h : (false : Bool) = true) (by simp)
  | some m =>
    rw [hm] at h
    have h2 : (truthyPid (create_dataset m env.createResp).1 &&
        (match e.file_url with
         | none => true
         | some s => (s == "") || env.fFetch.isOk)) = true := h
    rw [Bool.and_eq_true] at h2
    obtain ⟨hpid, hfile⟩ := h2
    rw [process_remote_entry_fst e env m hm]
    cases hc : (create_dataset m env.createResp).1 with
    | none => rw [hc] at hpid; cases hpid
    | some pid =>
      rw [hc] at hpid
      have hpt : jTruthy pid = true := by simpa [truthyPid] using hpid
      cases hfu : e.file_url with
      | none =>
        have hts : truthyStr e.file_url = false := by simp [truthyStr, hfu]
        exact ⟨pid, none, by simp [entry_after_metadata, hc, hpt, hts]⟩
      | some s =>
        rw [hfu] at hfile
        by_cases hs : s = ""
        · have hts : truthyStr e.file_url = false := by simp [truthyStr, hfu, hs]
          exact ⟨pid, none, by simp [entry_after_metadata, hc, hpt, hts]⟩
        · have hok : env.fFetch.isOk = true := by
            rcases Bool.or_eq_true_iff.mp hfile with hbeq | hok2
            · exact absurd (by simpa using hbeq) hs
            · exact hok2
          have hts : truthyStr e.file_url = true := by simp [truthyStr, hfu, hs]
          cases hff : env.fFetch with
          | raised => rw [hff] at hok; cases hok
          | ok t2 =>
            exact ⟨pid, some (upload_zip_file env.uploadResp),
              by simp [entry_after_metadata, hc, hpt, hts, hff]⟩

/-- A unit of no consequence, used as the getD default. -/
def dummyUnit : Entry × EntryEnv :=
  (⟨none, none, none⟩,
   ⟨.raised, .raised, .raised, .raised, fun _ => none, .raised, .raised⟩)

/-- A loop result of no consequence, used as the getD default. -/
def dummyOut : EntryOutcome × List Ev := (.errored, [])

theorem remote_list_loop_getD (items : List (Entry × EntryEnv)) (j : Nat)
    (hj : j < items.length) :
    (remote_list_loop items).getD j dummyOut
      = process_remote_entry (items.getD j dummyUnit).1 (items.getD j dummyUnit).2 := by
  unfold remote_list_loop
  rw [List.getD_eq_getElem _ _ (by simpa using hj), List.getD_eq_getElem _ _ hj,
      List.getElem_map]

/-- C5: one units failure never aborts the run: in a manifest whose unit
i is rejected by create_dataset or cannot resolve its metadata while
every other unit is well-behaved, the loop still produces one outcome
per unit, every unit other than i runs to completion, and unit i is the
one reported as failed (its outcome is not a completion). -/
theorem c5_failure_isolation (items : List (Entry × EntryEnv)) (i : Nat)
    (hi : i < items.length)
    (hbad : createRejectedUnitB (items.getD i dummyUnit).1 (items.getD i dummyUnit).2 = true ∨
            metadataUnavailableUnitB (items.getD i dummyUnit).1 (items.getD i dummyUnit).2 = true)
    (hgood : ∀ j, j < items.length → j ≠ i →
        goodUnitB (items.getD j dummyUnit).1 (items.getD j dummyUnit).2 = true) :
    (remote_list_loop items).length = items.length ∧
    (∀ j, j < items.length → j ≠ i →
        ∃ pid up, ((remote_list_loop items).getD j dummyOut).1 = EntryOutcome.completed pid up) ∧
    (∀ pid up, ((remote_list_loop items).getD i dummyOut).1 ≠ EntryOutcome.completed pid up) := by
  refine ⟨by simp [remote_list_loop], ?_, ?_⟩
  · intro j hj hne
    rw [remote_list_loop_getD items j hj]
    exact process_remote_entry_completed _ _ (hgood j hj hne)
  · intro pid up
    rw [remote_list_loop_getD items i hi]
    rcases hbad with hb | hb
    · rw [process_remote_entry_rejected _ _ hb]
      simp
    · rw [process_remote_entry_meta_unavailable _ _ hb]
      simp

/-- A well-formed 201 creation response used in concrete scenarios. -/
def demoGood201 : ApiResp :=
  .resp 201 (.ok (.obj [("data", .obj [("id", .num 1), ("persistentId", .str "doi:demo")])]))

/-- An empty 200 file-listing response used in concrete scenarios. -/
def demoList200 : ApiResp := .resp 200 (.ok (.obj [("data", .arr [])]))

def demoMeta : JValue := .obj [("datasetVersion", .obj [])]

def demoEntry : Entry := ⟨some demoMeta, none, none⟩

def demoOkEnv : EntryEnv :=
  ⟨.raised, .raised, demoGood201, demoList200, fun _ => some 200, .raised,
   .resp 200 (.ok .null)⟩

def demoBadEnv : EntryEnv :=
  ⟨.raised, .raised, .resp 400 (.ok .null), demoList200, fun _ => some 200, .raised,
   .resp 200 (.ok .null)⟩

def demoItems : List (Entry × EntryEnv) :=
  [(demoEntry, demoOkEnv), (demoEntry, demoBadEnv), (demoEntry, demoOkEnv)]

/-- C5 (witness): three units where the second units create_dataset call
is rejected: one outcome per unit, units 1 and 3 complete, unit 2 is the
failure. -/
theorem c5_witness :
    (remote_list_loop demoItems).length = demoItems.length ∧
    (∀ j, j < demoItems.length → j ≠ 1 →
        ∃ pid up, ((remote_list_loop demoItems).getD j dummyOut).1
          = EntryOutcome.completed pid up) ∧
    (∀ pid up, ((remote_list_loop demoItems).getD 1 dummyOut).1
        ≠ EntryOutcome.completed pid up) :=
  c5_failure_isolation demoItems 1 (by decide) (Or.inl (by decide)) (by decide)

/-- The delete calls issued by the per-item loop when no delete raises:
one per listed item with a truthy extracted file id. -/
def deleteCallsOf : List JValue → List Ev
  | [] => []
  | it :: rest =>
    match extract_file_id it with
    | none => deleteCallsOf rest
    | some fid =>
      if jTruthy fid then Ev.callDelete fid :: deleteCallsOf rest
      else deleteCallsOf rest

theorem delete_loop_no_raise (d : JValue → Option Int) (items : List JValue)
    (hd : ∀ fid, (d fid).isSome = true) :
    delete_loop d items = (true, deleteCallsOf items) := by
  induction items with
  | nil => rfl
  | cons it rest ih =>
    cases he : extract_file_id it with
    | none => simp [delete_loop, deleteCallsOf, he, ih]
    | some fid =>
      by_cases ht : jTruthy fid = true
      · obtain ⟨st, hst⟩ := Option.isSome_iff_exists.mp (hd fid)
        simp [delete_loop, deleteCallsOf, he, ht, hst, ih]
      · rw [Bool.not_eq_true] at ht
        simp [delete_loop, deleteCallsOf, he, ht, ih]

theorem delete_all_no_raise (pid : JValue) (items : List JValue) (d : JValue → Option Int)
    (hd : ∀ fid, (d fid).isSome = true) :
    delete_all_files_in_dataset pid (ApiResp.resp 200 (.ok (.obj [("data", .arr items)]))) d
      = (true, Ev.callList pid :: deleteCallsOf items) := by
  cases items with
  | nil => rfl
  | cons it rest =>
    simp [delete_all_files_in_dataset, jlookup, jTruthy, pyIter,
      delete_loop_no_raise d _ hd]

theorem deleteCallsOf_mem (items : List JValue) (it : JValue) (fid : JValue)
    (hmem : it ∈ items) (he : extract_file_id it = some fid) (ht : jTruthy fid = true) :
    Ev.callDelete fid ∈ deleteCallsOf items := by
  induction items with
  | nil => cases hmem
  | cons x rest ih =>
    rcases List.mem_cons.mp hmem with rfl | hmem2
    · simp [deleteCallsOf, he, ht]
    · cases hx : extract_file_id x with
      | none => simpa [deleteCallsOf, hx] using ih hmem2
      | some fid2 =>
        by_cases ht2 : jTruthy fid2 = true
        · simp only [deleteCallsOf, hx, ht2, if_true]
          exact List.mem_cons_of_mem _ (ih hmem2)
        · rw [Bool.not_eq_true] at ht2
          simpa [deleteCallsOf, hx, ht2] using ih hmem2

theorem deleteCallsOf_shape (items : List JValue) :
    ∀ ev ∈ deleteCallsOf items, Ev.isClear ev = true ∧ Ev.isUpload ev = false := by
  induction items with
  | nil => simp [deleteCallsOf]
  | cons x rest ih =>
    cases hx : extract_file_id x with
    | none => simpa [deleteCallsOf, hx] using ih
    | some fid =>
      by_cases ht : jTruthy fid = true
      · intro ev hev
        rcases List.mem_cons.mp (by simpa [deleteCallsOf, hx, ht] using hev) with rfl | h2
        · exact ⟨rfl, rfl⟩
        · exact ih ev h2
      · rw [Bool.not_eq_true] at ht
        intro ev hev
        exact ih ev (by simpa [deleteCallsOf, hx, ht] using hev)

theorem create_dataset_evs (m : JValue) (r : ApiResp) (pid : JValue)
    (h : (create_dataset m r).1 = some pid) :
    ∃ pl, (create_dataset m r).2.2 = [Ev.callCreate pl] := by
  cases hp : create_dataset_prep m with
  | none => simp [create_dataset, hp] at h
  | some pm => exact ⟨pm.1, by simp [create_dataset, hp]⟩

theorem entry_after_metadata_delResp (e : Entry) (env : EntryEnv) (m : JValue)
    (evs : List Ev) (temps : List String) (d2 : JValue → Option Int)
    (heq : ∀ pid, delete_all_files_in_dataset pid env.listResp d2
        = delete_all_files_in_dataset pid env.listResp env.delResp) :
    entry_after_metadata e { env with delResp := d2 } m evs temps
      = entry_after_metadata e env m evs temps := by
  cases hc : (create_dataset m env.createResp).1 with
  | none => simp [entry_after_metadata, hc]
  | some pid =>
    by_cases hp : jTruthy pid = true
    · by_cases hf : truthyStr e.file_url = true
      · cases hff : env.fFetch <;>
          simp [entry_after_metadata, hc, hp, hf, hff, heq pid]
      · rw [Bool.not_eq_true] at hf
        simp [entry_after_metadata, hc, hp, hf, heq pid]
    · rw [Bool.not_eq_true] at hp
      simp [entry_after_metadata, hc, hp]

theorem process_remote_entry_delResp (e : Entry) (env : EntryEnv) (d2 : JValue → Option Int)
    (heq : ∀ pid, delete_all_files_in_dataset pid env.listResp d2
        = delete_all_files_in_dataset pid env.listResp env.delResp) :
    process_remote_entry e { env with delResp := d2 } = process_remote_entry e env := by
  cases he : e.metadata with
  | some m =>
    simp only [process_remote_entry, he]
    exact entry_after_metadata_delResp e env m [] [] d2 heq
  | none =>
    cases hu : e.metadata_url with
    | none => simp [process_remote_entry, he, hu]
    | some u =>
      cases hf : env.mFetch with
      | raised => simp [process_remote_entry, he, hu, hf]
      | ok t =>
        cases hpr : env.mParse with
        | raised => simp [process_remote_entry, he, hu, hf, hpr]
        | ok m =>
          simp only [process_remote_entry, he, hu, hf, hpr]
          exact entry_after_metadata_delResp e env m _ _ d2 heq

/-- C6: for every manifest unit whose dataset creation succeeds, the
entry loop lists the existing files of the dataset and issues a delete
for every listed file with a resolvable id, all before any upload call;
the clearing happens whether or not the unit carries a file_url (the
hypotheses put no constraint on it), and the per-file delete statuses do
not influence the units outcome or trace (swapping the delete responses
for any other non-raising ones leaves the whole result unchanged). -/
theorem c6_clear_before_upload (e : Entry) (env : EntryEnv) (m pid : JValue)
    (items : List JValue) (d2 : JValue → Option Int)
    (hm : e.metadata = some m)
    (hc : (create_dataset m env.createResp).1 = some pid)
    (hp : jTruthy pid = true)
    (hl : env.listResp = ApiResp.resp 200 (.ok (.obj [("data", .arr items)])))
    (hd : ∀ fid, (env.delResp fid).isSome = true)
    (hd2 : ∀ fid, (d2 fid).isSome = true) :
    (∃ post, (process_remote_entry e env).2 =
        ((create_dataset m env.createResp).2.2 ++ (Ev.callList pid :: deleteCallsOf items))
          ++ post ∧
        (∀ ev ∈ (create_dataset m env.createResp).2.2 ++ (Ev.callList pid :: deleteCallsOf items),
            Ev.isUpload ev = false) ∧
        (∀ ev ∈ post, Ev.isClear ev = false) ∧
        Ev.callList pid ∈ (create_dataset m env.createResp).2.2
            ++ (Ev.callList pid :: deleteCallsOf items) ∧
        (∀ it ∈ items, ∀ fid, extract_file_id it = some fid → jTruthy fid = true →
            Ev.callDelete fid ∈ (create_dataset m env.createResp).2.2
              ++ (Ev.callList pid :: deleteCallsOf items))) ∧
    process_remote_entry e { env with delResp := d2 } = process_remote_entry e env := by
  obtain ⟨pl, hpl⟩ := create_dataset_evs m env.createResp pid hc
  have hda := delete_all_no_raise pid items env.delResp hd
  have hdb := delete_all_no_raise pid items d2 hd2
  constructor
  · have hup : ∀ ev ∈ (create_dataset m env.createResp).2.2
        ++ (Ev.callList pid :: deleteCallsOf items), Ev.isUpload ev = false := by
      intro ev hev
      rw [hpl] at hev
      rcases List.mem_append.mp hev with h1 | h2
      · rcases List.mem_singleton.mp h1 with rfl
        rfl
      · rcases List.mem_cons.mp h2 with rfl | h3
        · rfl
        · exact (deleteCallsOf_shape items ev h3).2
    have hlist : Ev.callList pid ∈ (create_dataset m env.createResp).2.2
        ++ (Ev.callList pid :: deleteCallsOf items) :=
      List.mem_append.mpr (Or.inr (List.mem_cons_self _ _))
    have hdel : ∀ it ∈ items, ∀ fid, extract_file_id it = some fid → jTruthy fid = true →
        Ev.callDelete fid ∈ (create_dataset m env.createResp).2.2
          ++ (Ev.callList pid :: deleteCallsOf items) := by
      intro it hit fid he ht
      exact List.mem_append.mpr
        (Or.inr (List.mem_cons_of_mem _ (deleteCallsOf_mem items it fid hit he ht)))
    have htr : process_remote_entry e env = entry_after_metadata e env m [] [] := by
      simp [process_remote_entry, hm]
    rw [htr]
    by_cases hf : truthyStr e.file_url = true
    · cases hff : env.fFetch with
      | raised =>
        refine ⟨[], ?_, hup, by simp, hlist, hdel⟩
        simp [entry_after_metadata, hc, hp, hf, hff, hl, hda]
      | ok t2 =>
        refine ⟨[Ev.acqTemp t2, Ev.callUpload pid t2, Ev.relTemp t2], ?_, hup, ?_, hlist, hdel⟩
        · simp [entry_after_metadata, hc, hp, hf, hff, hl, hda]
        · intro ev hev
          rcases List.mem_cons.mp hev with rfl | hev2
          · rfl
          · rcases List.mem_cons.mp hev2 with rfl | hev3
            · rfl
            · rcases List.mem_singleton.mp hev3 with rfl
              rfl
    · rw [Bool.not_eq_true] at hf
      refine ⟨[], ?_, hup, by simp, hlist, hdel⟩
      simp [entry_after_metadata, hc, hp, hf, hl, hda]
  · exact process_remote_entry_delResp e env d2 (fun pid2 => by
      rw [hl, delete_all_no_raise pid2 items d2 hd2,
          delete_all_no_raise pid2 items env.delResp hd])

def c6Item : JValue := .obj [("dataFile", .obj [("id", .num 7)])]

def c6Env : EntryEnv :=
  ⟨.raised, .raised, demoGood201,
   .resp 200 (.ok (.obj [("data", .arr [c6Item])])), fun _ => some 200, .raised,
   .resp 200 (.ok .null)⟩

/-- C6 (witness): the clearing statement evaluated on a concrete unit
without a file_url whose dataset lists one existing file. -/
theorem c6_witness :
    (∃ post, (process_remote_entry demoEntry c6Env).2 =
        ((create_dataset demoMeta c6Env.createResp).2.2
            ++ (Ev.callList (.str "doi:demo") :: deleteCallsOf [c6Item])) ++ post ∧
        (∀ ev ∈ (create_dataset demoMeta c6Env.createResp).2.2
            ++ (Ev.callList (.str "doi:demo") :: deleteCallsOf [c6Item]),
            Ev.isUpload ev = false) ∧
        (∀ ev ∈ post, Ev.isClear ev = false) ∧
        Ev.callList (.str "doi:demo") ∈ (create_dataset demoMeta c6Env.createResp).2.2
            ++ (Ev.callList (.str "doi:demo") :: deleteCallsOf [c6Item]) ∧
        (∀ it ∈ [c6Item], ∀ fid, extract_file_id it = some fid → jTruthy fid = true →
            Ev.callDelete fid ∈ (create_dataset demoMeta c6Env.createResp).2.2
              ++ (Ev.callList (.str "doi:demo") :: deleteCallsOf [c6Item]))) ∧
    process_remote_entry demoEntry { c6Env with delResp := fun _ => some 404 }
      = process_remote_entry demoEntry c6Env :=
  c6_clear_before_upload demoEntry c6Env demoMeta (.str "doi:demo") [c6Item]
    (fun _ => some 404) rfl rfl rfl rfl (fun _ => rfl) (fun _ => rfl)

/-- C7: provider selection follows the fixed decision order — the
SharePoint/OneDrive pattern is checked first, then the Google Drive
pattern, then the HTML probe, then the JSON-array manifest, with a
non-URL locator read as a local manifest file — and a SharePoint/OneDrive
locator with no (truthy) OneDrive token fails with the missing-credential
error after zero network requests. -/
theorem c7_provider_selection (o : SelOpts) (ctype body : String) :
    (isHttpUrl o.remote_list = true → spPattern (strLower o.remote_list) = true →
        truthyStr o.onedrive_token = false →
        select_provider o ctype body = (.missingCredential "onedrive", 0)) ∧
    (isHttpUrl o.remote_list = true → spPattern (strLower o.remote_list) = true →
        truthyStr o.onedrive_token = true →
        select_provider o ctype body = (.oneDrive, 0)) ∧
    (isHttpUrl o.remote_list = true → spPattern (strLower o.remote_list) = false →
        gdrivePattern (strLower o.remote_list) = true →
        truthyStr o.gdrive_token = true →
        select_provider o ctype body = (.googleDrive, 0)) ∧
    (isHttpUrl o.remote_list = true → spPattern (strLower o.remote_list) = false →
        gdrivePattern (strLower o.remote_list) = true →
        truthyStr o.gdrive_token = false →
        select_provider o ctype body = (.missingCredential "gdrive", 0)) ∧
    (isHttpUrl o.remote_list = true → spPattern (strLower o.remote_list) = false →
        gdrivePattern (strLower o.remote_list) = false → htmlSniff ctype body = true →
        select_provider o ctype body = (.htmlIndex, 1)) ∧
    (isHttpUrl o.remote_list = true → spPattern (strLower o.remote_list) = false →
        gdrivePattern (strLower o.remote_list) = false → htmlSniff ctype body = false →
        select_provider o ctype body = (.remoteManifest, 1)) ∧
    (isHttpUrl o.remote_list = false →
        select_provider o ctype body = (.localManifest, 0)) := by
  refine ⟨?_, ?_, ?_, ?_, ?_, ?_, ?_⟩ <;> intro h1 <;>
    simp_all [select_provider]

/-- C7 (witness): a SharePoint share URL with no OneDrive token selects
nothing and fails with the missing-credential error after zero network
requests. -/
theorem c7_witness :
    select_provider ⟨"https://utoronto-my.sharepoint.com/f/x", none, none⟩ "" ""
      = (.missingCredential "onedrive", 0) :=
  (c7_provider_selection ⟨"https://utoronto-my.sharepoint.com/f/x", none, none⟩ "" "").1
    (by decide) (by decide) (by decide)

/-- C8 (counterexample): a manifest entry carrying both "metadata" and
"metadata_url" is not rejected: it is processed normally (the inline
metadata wins and the unit completes with a created dataset),
contradicting the claim that an element with both fields is invalid
rather than being processed. -/
theorem c8_counterexample :
    (⟨some demoMeta, some "http://h/m.json", none⟩ : Entry).metadata.isSome = true ∧
    (⟨some demoMeta, some "http://h/m.json", none⟩ : Entry).metadata_url.isSome = true ∧
    (process_remote_entry ⟨some demoMeta, some "http://h/m.json", none⟩ demoOkEnv).1
      = EntryOutcome.completed (.str "doi:demo") none ∧
    (process_remote_entry ⟨some demoMeta, some "http://h/m.json", none⟩ demoOkEnv).2.countP
      Ev.isCreate = 1 :=
  ⟨rfl, rfl, rfl, rfl⟩

/-- C8 (amended): the entry loop does not enforce exactly-one: an entry
with neither "metadata" nor "metadata_url" is rejected with an error and
no repository call or download, while an entry with both is processed
using the inline metadata — the metadata_url is never fetched, so the
result is unchanged under arbitrary download and parse outcomes. -/
theorem c8_presence_handling (e : Entry) (env : EntryEnv) (a : Fetched String)
    (b : Fetched JValue) :
    (e.metadata = none → e.metadata_url = none →
        process_remote_entry e env = (.errored, [])) ∧
    (∀ m, e.metadata = some m →
        process_remote_entry e { env with mFetch := a, mParse := b }
          = process_remote_entry e env) := by
  constructor
  · intro h1 h2
    simp [process_remote_entry, h1, h2]
  · intro m hm
    simp [process_remote_entry, hm]
    rfl

/-- C8 (witness): the amended statement evaluated on an entry with both
fields and on an entry with neither. -/
theorem c8_witness :
    ((⟨none, none, none⟩ : Entry).metadata = none →
        (⟨none, none, none⟩ : Entry).metadata_url = none →
        process_remote_entry ⟨none, none, none⟩ demoOkEnv = (.errored, [])) ∧
    (∀ m, (⟨some demoMeta, some "http://h/m.json", none⟩ : Entry).metadata = some m →
        process_remote_entry ⟨some demoMeta, some "http://h/m.json", none⟩
            { demoOkEnv with mFetch := .ok "tmp1", mParse := .ok (.num 0) }
          = process_remote_entry ⟨some demoMeta, some "http://h/m.json", none⟩ demoOkEnv) :=
  ⟨(c8_presence_handling ⟨none, none, none⟩ demoOkEnv (.ok "tmp1") (.ok (.num 0))).1,
   (c8_presence_handling ⟨some demoMeta, some "http://h/m.json", none⟩ demoOkEnv
      (.ok "tmp1") (.ok (.num 0))).2⟩

def c2Root : String := "http://host/data/"

def c2Links : List String :=
  ["http://host/data/a.json", "http://host/data/a.zip",
   "http://host/data/b.json", "http://host/data/c.zip"]

/-- Deterministic environment for the flat-listing scenario: both fetches
of the root page return the same four links, every download succeeds,
and the repository accepts everything. -/
def c2Env : HtmlEnv :=
  ⟨[.ok c2Links, .ok c2Links],
   fun u => .ok ("tmp:" ++ u),
   fun t => .ok (.str t),
   fun _ => demoGood201,
   fun _ => demoList200,
   fun _ => some 200,
   fun _ => .resp 200 (.ok .null)⟩

def c2Trace : List Ev :=
  [.acqTemp "tmp:http://host/data/a.json",
   .callCreate (.str "tmp:http://host/data/a.json"),
   .callList (.str "doi:demo"),
   .acqTemp "tmp:http://host/data/a.zip",
   .callUpload (.str "doi:demo") "tmp:http://host/data/a.zip",
   .relTemp "tmp:http://host/data/a.json",
   .relTemp "tmp:http://host/data/a.zip"]

/-- C2 (counterexample): for the flat root listing [a.json, a.zip,
b.json, c.zip] with no directory-style links, the run issues exactly one
create_dataset call, not one per root .json (there are two root .json
links): b.json and c.zip are ignored entirely, because the stem-pairing
fallback is only reached when the folder re-fetch finds no .json at all. -/
theorem c2_counterexample :
    process_remote_folder_url c2Env c2Root = .ok c2Trace ∧
    ((dedupFirst c2Links).filter (fun l => endsWithLower l ".json")).length = 2 ∧
    c2Trace.countP Ev.isCreate ≠
      ((dedupFirst c2Links).filter (fun l => endsWithLower l ".json")).length :=
  ⟨rfl, rfl, by decide⟩

/-- C2 (amended): in the flat case the code pairs the first root-level
.json with the first root-level .zip and processes exactly that one
unit: the trace holds one create call sourced from a.json and one upload
of a.zip, and the remaining root entries produce no calls. -/
theorem c2_flat_first_pair :
    process_remote_folder_url c2Env c2Root = .ok c2Trace ∧
    c2Trace.countP Ev.isCreate = 1 ∧
    Ev.callCreate (.str "tmp:http://host/data/a.json") ∈ c2Trace ∧
    Ev.callUpload (.str "doi:demo") "tmp:http://host/data/a.zip" ∈ c2Trace ∧
    Ev.callCreate (.str "tmp:http://host/data/b.json") ∉ c2Trace ∧
    c2Trace.countP Ev.isUpload = 1 :=
  ⟨rfl, rfl, by simp [c2Trace], by simp [c2Trace], by simp [c2Trace], rfl⟩

def c3Root : String := "http://host/flat/"

/-- Environment reaching the flat-pairing fallback: the first fetch of
the root lists a.json, the re-fetch of the root as a folder returns no
links (two distinct network requests may answer differently), and
create_dataset is rejected with a 400. -/
def c3Env : HtmlEnv :=
  ⟨[.ok ["http://host/flat/a.json"], .ok []],
   fun u => .ok ("tmp:" ++ u),
   fun t => .ok (.str t),
   fun _ => .resp 400 (.ok .null),
   fun _ => demoList200,
   fun _ => some 200,
   fun _ => .resp 200 (.ok .null)⟩

def c3Trace : List Ev :=
  [.acqTemp "tmp:http://host/flat/a.json",
   .callCreate (.str "tmp:http://host/flat/a.json")]

/-- C3: on the flat-pairing fallback path, the metadata temp file
acquired for a.json is never released when create_dataset rejects the
unit: the continue at remote_loader.py line 169 skips the os.remove at
line 179 and there is no finally clause on this path, so the trace holds
an acquisition with no matching release. -/
theorem c3_temp_leak :
    process_remote_folder_url c3Env c3Root = .ok c3Trace ∧
    Ev.acqTemp "tmp:http://host/flat/a.json" ∈ c3Trace ∧
    Ev.relTemp "tmp:http://host/flat/a.json" ∉ c3Trace :=
  ⟨rfl, List.mem_cons_self _ _, by simp [c3Trace]⟩
